import Mathlib

/-!
Shallow embedding of the core of `sentiment_elections_dev` (Python) and
verification of the frozen claims about its specification.

Sources embedded:
* `backend/scrapper/comment_processor.py` — `CommentProcessor`
  (`clean_text`, `validate_comment`).
* `backend/scrapper/youtube_scraper.py` — `YouTubeScraper`
  (`search_videos`, `extract_comments`' per-item pipeline,
  `scrape_search_results`).
* `backend/sentiment_analysis/sentiment_client.py` — `SentimentServiceClient`
  (`check_health`, `analyze_sentiment`, `_fallback_analysis`).
* `backend/sentiment_analysis/sentiment_service.py` — `SentimentAnalyzer.get_statistics`.

Strings are Lean `String`s (lists of Unicode scalar values, which matches
Python `str` as a sequence of code points, surrogates aside); `len` on a
Python string is `String.length` here.  Wall-clock instants are modelled as
integer counters.  External collaborators (the comment downloader, the search
source, the HTTP transport, the `langdetect` detector, the local classifier)
are parameters of the embedded functions; effects on them are recorded in
explicit event lists so that "no request was sent" is a statement about the
event trace.
-/

namespace SentimentElections

/-! ## CommentProcessor (`comment_processor.py`)

`clean_text` applies, in order:
1. `REMOVE_URLS.sub('', text)` with `REMOVE_URLS = re.compile(r'http\S+|www.\S+')`;
2. `REMOVE_EMOJIS.sub('', text)` — a single character class, so equivalent to
   dropping every character in the class;
3. `re.sub(r'\s+', ' ', text).strip()`;
4. `''.join(c for c in text if ord(c) >= 32 or c in '\n\t')`.
-/

/-- Python's `\s` (and `str.strip()` whitespace) for `str` patterns:
the Unicode whitespace characters. -/
def isPySpace (c : Char) : Bool :=
  let n := c.toNat
  n == 32 || n == 9 || n == 10 || n == 11 || n == 12 || n == 13 ||
  n == 28 || n == 29 || n == 30 || n == 31 || n == 0x85 || n == 0xa0 ||
  n == 0x1680 || (0x2000 ≤ n && n ≤ 0x200a) || n == 0x2028 || n == 0x2029 ||
  n == 0x202f || n == 0x205f || n == 0x3000

def isNonSpace (c : Char) : Bool := !(isPySpace c)

/-- Try the regex branch `http\S+` at the head of the list: literal `http`
followed by one or more (maximal) non-whitespace characters.  Returns the
remainder after the match. -/
def matchHttp : List Char → Option (List Char)
  | 'h' :: 't' :: 't' :: 'p' :: rest =>
    match rest with
    | c :: _ => if isNonSpace c then some (rest.dropWhile isNonSpace) else none
    | [] => none
  | _ => none

/-- Try the regex branch `www.\S+` at the head of the list: literal `www`,
then any character except `\n` (the unescaped dot), then one or more
(maximal) non-whitespace characters.  Returns the remainder after the
match. -/
def matchWww : List Char → Option (List Char)
  | 'w' :: 'w' :: 'w' :: d :: rest =>
    if d == '\n' then none
    else
      match rest with
      | c :: _ => if isNonSpace c then some (rest.dropWhile isNonSpace) else none
      | [] => none
  | _ => none

/-- `re.sub` scan for `http\S+|www.\S+` with replacement `''`: at each
position try the alternatives in order; on a match, emit nothing and resume
after the match, otherwise emit the character and advance one position.
Fuel-indexed structural recursion; every recursive call consumes at least one
character, so fuel `l.length` gives the exact scan (see `urlSub`). -/
def urlSubF : Nat → List Char → List Char
  | 0, l => l
  | _ + 1, [] => []
  | fuel + 1, c :: cs =>
    match matchHttp (c :: cs) with
    | some rest => urlSubF fuel rest
    | none =>
      match matchWww (c :: cs) with
      | some rest => urlSubF fuel rest
      | none => c :: urlSubF fuel cs

def urlSub (l : List Char) : List Char := urlSubF l.length l

/-- Membership in the `REMOVE_EMOJIS` character class. -/
def isEmoji (c : Char) : Bool :=
  let n := c.toNat
  (0x1F600 ≤ n && n ≤ 0x1F64F) || (0x1F300 ≤ n && n ≤ 0x1F5FF) ||
  (0x1F680 ≤ n && n ≤ 0x1F6FF) || (0x1F1E0 ≤ n && n ≤ 0x1F1FF) ||
  (0x2702 ≤ n && n ≤ 0x27B0) || (0x24C2 ≤ n && n ≤ 0x1F251) ||
  (0x1F926 ≤ n && n ≤ 0x1F937) || (0x10000 ≤ n && n ≤ 0x10FFFF) ||
  (0x2640 ≤ n && n ≤ 0x2642) || (0x2600 ≤ n && n ≤ 0x2B55) ||
  n == 0x200d || n == 0x23cf || n == 0x23e9 || n == 0x231a ||
  n == 0xfe0f || n == 0x3030

/-- `REMOVE_EMOJIS.sub('', text)`: the pattern is `[class]+`, so substituting
`''` is exactly dropping every character of the class. -/
def emojiSub (l : List Char) : List Char := l.filter (fun c => !isEmoji c)

/-- `re.sub(r'\s+', ' ', text)`: every maximal whitespace run becomes a
single space.  Fuel-indexed as in `urlSubF`; fuel `l.length` is exact. -/
def collapseWsF : Nat → List Char → List Char
  | 0, l => l
  | _ + 1, [] => []
  | fuel + 1, c :: cs =>
    if isPySpace c then ' ' :: collapseWsF fuel (cs.dropWhile isPySpace)
    else c :: collapseWsF fuel cs

def collapseWs (l : List Char) : List Char := collapseWsF l.length l

/-- Python `str.strip()` — remove leading and trailing whitespace. -/
def pyStrip (l : List Char) : List Char :=
  ((l.dropWhile isPySpace).reverse.dropWhile isPySpace).reverse

/-- `''.join(char for char in text if ord(char) >= 32 or char in '\n\t')`. -/
def ctrlFilter (l : List Char) : List Char :=
  l.filter (fun c => 32 ≤ c.toNat || c == '\n' || c == '\t')

/-- `CommentProcessor.clean_text` (comment_processor.py, lines 59-80). -/
def clean_text (s : String) : String :=
  String.mk (ctrlFilter (pyStrip (collapseWs (emojiSub (urlSub s.data)))))

/-- Python `str.lower`, character-wise, on the ASCII and Latin-1 ranges
(`A`-`Z` and `À`-`Þ` except `×` map down by 32); identity elsewhere.  This
agrees with Python on every character whose lowercase form can lie in the
class `[a-záéíóúñ]` tested by `validate_comment`, up to the two exotic
mappings U+0130 and U+212A. -/
def pyLowerChar (c : Char) : Char :=
  let n := c.toNat
  if 65 ≤ n && n ≤ 90 then Char.ofNat (n + 32)
  else if 0xC0 ≤ n && n ≤ 0xDE && n ≠ 0xD7 then Char.ofNat (n + 32)
  else c

/-- The character class `[a-záéíóúñ]`. -/
def isSpanishAlpha (c : Char) : Bool :=
  ('a' ≤ c && c ≤ 'z') || c == 'á' || c == 'é' || c == 'í' || c == 'ó' ||
  c == 'ú' || c == 'ñ'

/-- `re.search(r'[a-záéíóúñ]', cleaned.lower())` viewed as a Bool. -/
def hasSpanishAlpha (s : String) : Bool :=
  s.data.any (fun c => isSpanishAlpha (pyLowerChar c))

/-- Python truthiness of the optional `language` argument: `None` and `""`
are falsy, any other string is truthy. -/
def langTruthy : Option String → Bool
  | none => false
  | some l => l ≠ ""

def MIN_LENGTH : Nat := 5
def MAX_LENGTH : Nat := 5000

/-- `CommentProcessor.validate_comment` (comment_processor.py, lines 82-108).
Returns `(es_válido, texto_limpio)`. -/
def validate_comment (text : String) (language : Option String := none) :
    Bool × Option String :=
  let cleaned := clean_text text
  if cleaned.length < MIN_LENGTH then (false, none)
  else
    let cleaned :=
      if cleaned.length > MAX_LENGTH then String.mk (cleaned.data.take MAX_LENGTH)
      else cleaned
    if langTruthy language && language ≠ some "es" then (false, none)
    else if !hasSpanishAlpha cleaned then (false, none)
    else (true, some cleaned)

/-! ## Data model (`models.py`) -/

/-- `Comment` dataclass (models.py).  `datetime` values are modelled as
integer instants. -/
structure Comment where
  comment_id : String
  text : String
  author : String
  author_id : String
  timestamp : Nat
  likes : Nat
  video_id : String
  video_title : String
  is_reply : Bool := false
  parent_comment_id : Option String := none
  language : String := "es"
deriving Repr, DecidableEq

/-- `YouTubeVideo` dataclass (models.py).  `upload_date` is an integer
instant (same clock as `now` below; the unit is the `hours_back` unit). -/
structure YouTubeVideo where
  video_id : String
  title : String
  channel : String
  views : Nat
  likes : Nat
  upload_date : Int
  duration : Nat
  url : String
deriving Repr, DecidableEq

/-- `ScraperStats` dataclass (models.py). -/
structure ScraperStats where
  start_time : Nat
  end_time : Option Nat := none
  videos_found : Nat := 0
  videos_processed : Nat := 0
  comments_extracted : Nat := 0
  comments_filtered : Nat := 0
  errors : List String := []
deriving Repr, DecidableEq

/-! ## VideoSearchEngine — `YouTubeScraper.search_videos`
(youtube_scraper.py, lines 61-134)

One raw search entry of the yt-dlp result.  `none` in `id` models a missing
`'id'` key: `entry['id']` then raises `KeyError`, which the per-entry
`except` catches, skipping the entry (a malformed `upload_date` string,
whose `strptime` likewise raises and skips the entry, is modelled the same
way).  The other fields are read with `.get(…)` and a default, hence
`Option` with `getD`.  `upload_date`, when present, is the parsed
`'%Y%m%d'` value on the same clock as `now`. -/
structure RawEntry where
  id : Option String := none
  title : Option String := none
  uploader : Option String := none
  view_count : Option Nat := none
  like_count : Option Nat := none
  upload_date : Option Int := none
  duration : Option Nat := none
deriving Repr, DecidableEq

/-- Construction of the `YouTubeVideo` from one entry
(youtube_scraper.py, lines 111-120). -/
def mkVideo (e : RawEntry) (i : String) (uploadDt : Int) : YouTubeVideo :=
  { video_id := i
    title := e.title.getD "Unknown"
    channel := e.uploader.getD "Unknown"
    views := e.view_count.getD 0
    likes := e.like_count.getD 0
    upload_date := uploadDt
    duration := e.duration.getD 0
    url := "https://www.youtube.com/watch?v=" ++ i }

/-- `upload_dt`: the parsed upload instant, or `datetime.now()` when the
entry has none (youtube_scraper.py, lines 99-104). -/
def entryUploadDt (now : Int) (e : RawEntry) : Int :=
  match e.upload_date with
  | some d => d
  | none => now

/-- `YouTubeScraper.search_videos`: for each entry, take its upload instant
(`now` when the field is absent), drop it when strictly older than
`cutoff = now - hours_back`, otherwise build the `YouTubeVideo`; finally
sort by views, descending (`videos.sort(key=lambda v: v.views,
reverse=True)`).  A wholesale search failure returns `[]` in the source,
i.e. the behaviour at `entries = []`. -/
def search_videos (now : Int) (hoursBack : Nat) (entries : List RawEntry) :
    List YouTubeVideo :=
  let cutoff : Int := now - hoursBack
  let videos := entries.filterMap (fun e =>
    if entryUploadDt now e < cutoff then none
    else
      match e.id with
      | some i => some (mkVideo e i (entryUploadDt now e))
      | none => none)
  videos.mergeSort (fun a b => decide (b.views ≤ a.views))

/-! ## CommentExtractor — `YouTubeScraper.extract_comments`
(youtube_scraper.py, lines 136-263) -/

/-- One raw record from the comment downloader.  `votes` is the parsed
`int(raw['votes'])` when the key is present, truthy and numeric;
`time_text`, when numeric, is its parsed epoch value.  `faulty` models a
record whose per-item processing raises (e.g. a decode failure or a
non-numeric `votes` string): the per-item `except` catches it and the item
is skipped. -/
structure RawComment where
  text : String := ""
  cid : Option String := none
  author : Option String := none
  channel_id : Option String := none
  votes : Option Nat := none
  time_text : Option Nat := none
  reply_count : Nat := 0
  faulty : Bool := false
deriving Repr, DecidableEq

/-- Per-item processing of the extraction thread (youtube_scraper.py,
lines 183-239): detect the language, discard unless `'es'`, validate via
`CommentProcessor.validate_comment`, discard if invalid, then build the
`Comment`.  `detect` is the external `langdetect` collaborator; `count` is
the running admitted count, used for the `unknown_<n>` fallback id. -/
def processItem (detect : String → String) (videoId videoTitle : String)
    (now : Nat) (count : Nat) (raw : RawComment) : Option Comment :=
  if raw.faulty then none
  else if detect raw.text ≠ "es" then none
  else
    match validate_comment raw.text (some (detect raw.text)) with
    | (true, some cleaned) =>
      some { comment_id := raw.cid.getD ("unknown_" ++ toString count)
             text := cleaned
             author := raw.author.getD "Anonymous"
             author_id := raw.channel_id.getD ""
             timestamp := raw.time_text.getD now
             likes := raw.votes.getD 0
             video_id := videoId
             video_title := videoTitle
             is_reply := decide (raw.reply_count ≠ 0)
             parent_comment_id := none
             language := detect raw.text }
    | _ => none

/-- The extraction thread's loop (youtube_scraper.py, lines 175-239): stop
once `max_comments` comments were admitted, skip items the per-item
pipeline discards, append admitted ones to the shared buffer, incrementing
the admitted count. -/
def extractLoop (detect : String → String) (maxComments : Nat)
    (videoId videoTitle : String) (now : Nat) :
    List RawComment → Nat → List Comment
  | [], _ => []
  | raw :: rest, count =>
    if maxComments ≤ count then []
    else
      match processItem detect videoId videoTitle now count raw with
      | some c => c :: extractLoop detect maxComments videoId videoTitle now rest (count + 1)
      | none => extractLoop detect maxComments videoId videoTitle now rest count

/-- `YouTubeScraper.extract_comments`, as the contents of the shared buffer
when the extraction thread runs to completion.  When the 45 s deadline
expires first, the caller returns the buffer as it stands at that instant,
i.e. some prefix of this list (the buffer is append-only and the thread
appends admitted comments in order); the claims below therefore quantify
over prefixes. -/
def extract_comments (detect : String → String) (maxComments : Nat)
    (videoId videoTitle : String) (now : Nat) (raws : List RawComment) :
    List Comment :=
  extractLoop detect maxComments videoId videoTitle now raws 0

/-! ## ScrapeOrchestrator — `YouTubeScraper.scrape_search_results`
(youtube_scraper.py, lines 265-324)

The orchestrator run is modelled with an explicit run state carrying the
wall clock, the `ScraperStats` accumulator, and — instrumentation for claim
C1 — the number of times the statement `stats.end_time = datetime.now()`
has executed.  The source contains exactly two such statements: line 294
(the zero-videos early return) and line 322 (the `finally` clause, which
Python runs on every exit from the `try`, including the early `return`). -/

structure OrchState where
  clock : Nat
  stats : ScraperStats
  endTimeWrites : Nat
deriving Repr, DecidableEq

/-- `datetime.now()`: read and advance the run clock. -/
def tick (σ : OrchState) : Nat × OrchState :=
  (σ.clock, { σ with clock := σ.clock + 1 })

/-- One execution of `stats.end_time = datetime.now()`. -/
def setEndTime (σ : OrchState) : OrchState :=
  let (t, σ') := tick σ
  { σ' with stats := { σ'.stats with end_time := some t }
            endTimeWrites := σ'.endTimeWrites + 1 }

/-- The body of the per-video loop (youtube_scraper.py, lines 298-312):
extraction failures are caught, recorded in `stats.errors`, and the loop
continues. -/
def processVideo (extract : YouTubeVideo → Except String (List Comment))
    (acc : List Comment × OrchState) (v : YouTubeVideo) :
    List Comment × OrchState :=
  let (comments, σ) := acc
  match extract v with
  | .ok cs =>
    (comments ++ cs,
     { σ with stats := { σ.stats with
         videos_processed := σ.stats.videos_processed + 1
         comments_extracted := σ.stats.comments_extracted + cs.length } })
  | .error e =>
    (comments,
     { σ with stats := { σ.stats with
         errors := σ.stats.errors ++ ["Error en video " ++ v.video_id ++ ": " ++ e] } })

/-- `YouTubeScraper.scrape_search_results`.  `search` is the outcome of the
search phase inside the top-level `try`: `.ok videos` the normal outcome
(as implemented, `search_videos` itself absorbs its errors and returns a
list), `.error e` any exception escaping the phase, which the top-level
`except` catches (appending `Error crítico…`) before the `finally`
finalizes the stats.  `extract` is the per-video extraction outcome. -/
def scrape_search_results (search : Except String (List YouTubeVideo))
    (extract : YouTubeVideo → Except String (List Comment))
    (maxVideos : Nat) : List Comment × OrchState :=
  let (t0, σ) := tick { clock := 0, stats := { start_time := 0 }, endTimeWrites := 0 }
  let σ := { σ with stats := { start_time := t0 } }
  match search with
  | .error e =>
    let σ := { σ with stats := { σ.stats with
      errors := σ.stats.errors ++ ["Error crítico en scraping: " ++ e] } }
    ([], setEndTime σ)
  | .ok videos =>
    let σ := { σ with stats := { σ.stats with videos_found := videos.length } }
    if videos.isEmpty then
      -- line 294: `stats.end_time = datetime.now()` before the early return,
      -- then line 322: the `finally` clause runs on that return and assigns again
      ([], setEndTime (setEndTime σ))
    else
      let (comments, σ) := (videos.take maxVideos).foldl (processVideo extract) ([], σ)
      (comments, setEndTime σ)

/-! ## SentimentRouter — `SentimentServiceClient`
(sentiment_client.py) -/

/-- Rows of the `/analyze` response body. -/
structure RemoteData where
  sentiments : List String
  scores : List ℚ
  confidences : List ℚ
deriving Repr, DecidableEq

/-- One element of `SentimentAnalyzer.analyze_batch`'s result, as consumed
by `_fallback_analysis`. -/
structure LocalResult where
  sentiment : String
  score : ℚ
  confidence : ℚ
deriving Repr, DecidableEq

/-- The dict returned by `analyze_sentiment` / `_fallback_analysis`. -/
structure AnalyzeResponse where
  sentiments : List String
  scores : List ℚ
  confidences : List ℚ
  service : String
deriving Repr, DecidableEq

/-- The external collaborators of one `analyze_sentiment` call:
`probe` is `GET /health` (`.error ()`: transport exception — `check_health`
then records unhealthy without touching `last_health_check`; `.ok b`:
a response, `b` = (status == 200)); `remote` is `POST /analyze` (`.error`:
non-2xx status, timeout, or transport error — the three `except`/status
branches all behave identically); `localClassifier` is
`get_analyzer().analyze_batch` (`.error`: the local classifier is
unavailable or raises). -/
structure Transport where
  probe : Except Unit Bool
  remote : List String → Bool → Except String RemoteData
  localClassifier : List String → Bool → Except String (List LocalResult)

/-- Mutable fields of `SentimentServiceClient` (init: lines 17-35). -/
structure ClientState where
  is_healthy : Bool := false
  last_health_check : Option Nat := none
  fallback_to_local : Bool := true
deriving Repr, DecidableEq

def health_check_interval : Nat := 30

/-- Externally observable requests made during one call. -/
inductive Ev
  | probe
  | remote
  | localAttempt
deriving Repr, DecidableEq

/-- `datetime.timedelta.seconds` for a non-negative whole-second delta:
the seconds *component*, i.e. the total seconds modulo one day — not the
total elapsed time. -/
def pyDeltaSeconds (d : Nat) : Nat := d % 86400

/-- The probe-refresh condition of `analyze_sentiment` (lines 78-79):
`not self.last_health_check or
 (datetime.now() - self.last_health_check).seconds > self.health_check_interval`. -/
def healthCheckDue (st : ClientState) (now : Nat) : Bool :=
  match st.last_health_check with
  | none => true
  | some t => health_check_interval < pyDeltaSeconds (now - t)

/-- `SentimentServiceClient.check_health` (lines 39-56).  On a transport
exception, `is_healthy` is cleared but `last_health_check` is *not*
updated; on any response, both are set. -/
def check_health (st : ClientState) (now : Nat) (tr : Transport) : ClientState :=
  match tr.probe with
  | .ok ok200 => { st with is_healthy := ok200, last_health_check := some now }
  | .error _ => { st with is_healthy := false }

/-- `SentimentServiceClient._fallback_analysis` (lines 120-143): raise when
the fallback is disabled; otherwise one attempt against the local
classifier, tagging the batch `"local"` on success and re-raising its
error otherwise. -/
def fallback_analysis (st : ClientState) (tr : Transport)
    (texts : List String) (useSimplified : Bool) :
    Except String AnalyzeResponse × List Ev :=
  if !st.fallback_to_local then
    (.error "Sentiment Service no disponible", [])
  else
    match tr.localClassifier texts useSimplified with
    | .ok results =>
      (.ok { sentiments := results.map (fun r => r.sentiment)
             scores := results.map (fun r => r.score)
             confidences := results.map (fun r => r.confidence)
             service := "local" }, [Ev.localAttempt])
    | .error e => (.error e, [Ev.localAttempt])

/-- `SentimentServiceClient.analyze_sentiment` (lines 58-118): refresh the
cached health probe when due; from Healthy dispatch the batch remotely,
tagging `"remote"` on a 200 and otherwise marking the client unhealthy and
falling back; from Unhealthy go straight to the fallback. -/
def analyze_sentiment (st : ClientState) (now : Nat) (tr : Transport)
    (texts : List String) (useSimplified : Bool) :
    Except String AnalyzeResponse × ClientState × List Ev :=
  let (st1, evs1) :=
    if healthCheckDue st now then (check_health st now tr, [Ev.probe])
    else (st, [])
  if st1.is_healthy then
    match tr.remote texts useSimplified with
    | .ok data =>
      (.ok { sentiments := data.sentiments, scores := data.scores
             confidences := data.confidences, service := "remote" },
       st1, evs1 ++ [Ev.remote])
    | .error _ =>
      let st2 := { st1 with is_healthy := false }
      let (r, evs2) := fallback_analysis st2 tr texts useSimplified
      (r, st2, evs1 ++ [Ev.remote] ++ evs2)
  else
    let (r, evs2) := fallback_analysis st1 tr texts useSimplified
    (r, st1, evs1 ++ evs2)

/-! ## `SentimentAnalyzer.get_statistics`
(backend/sentiment_analysis/sentiment_service.py, lines 235-282) -/

/-- One element of an `analyze_batch` result list, as consumed by
`get_statistics`: `sentiment` is `None` for failed items (and `""` is
likewise falsy for `r.get("sentiment")`).  Scores are modelled as
rationals. -/
structure AnalysisResult where
  sentiment : Option String := none
  score : ℚ := 0
  confidence : ℚ := 0
deriving Repr, DecidableEq

/-- The statistics dict; the source returns `{}` for an empty or all-invalid
input, modelled as `none`. -/
structure SentimentStatistics where
  total : Nat
  positive_count : Nat
  negative_count : Nat
  neutral_count : Nat
  positive_pct : ℚ
  negative_pct : ℚ
  neutral_pct : ℚ
  avg_score : ℚ
  avg_confidence : ℚ
deriving Repr, DecidableEq

/-- Python truthiness of `r.get("sentiment")`. -/
def resultTruthy (r : AnalysisResult) : Bool :=
  match r.sentiment with
  | none => false
  | some s => s ≠ ""

/-- `valid_results = [r for r in results if r.get("sentiment")]`. -/
def validResults (results : List AnalysisResult) : List AnalysisResult :=
  results.filter resultTruthy

/-- `SentimentAnalyzer.get_statistics`: filter the valid results, count the
three exact labels, and average score/confidence over all valid results
(`np.mean` = sum / length). -/
def get_statistics (results : List AnalysisResult) : Option SentimentStatistics :=
  if results.isEmpty then none
  else if (validResults results).isEmpty then none
  else
    some
      { total := (validResults results).length
        positive_count :=
          ((validResults results).filter (fun r => r.sentiment == some "positive")).length
        negative_count :=
          ((validResults results).filter (fun r => r.sentiment == some "negative")).length
        neutral_count :=
          ((validResults results).filter (fun r => r.sentiment == some "neutral")).length
        positive_pct :=
          (((validResults results).filter (fun r => r.sentiment == some "positive")).length : ℚ)
            / (validResults results).length * 100
        negative_pct :=
          (((validResults results).filter (fun r => r.sentiment == some "negative")).length : ℚ)
            / (validResults results).length * 100
        neutral_pct :=
          (((validResults results).filter (fun r => r.sentiment == some "neutral")).length : ℚ)
            / (validResults results).length * 100
        avg_score :=
          ((validResults results).map (fun r => r.score)).sum / (validResults results).length
        avg_confidence :=
          ((validResults results).map (fun r => r.confidence)).sum
            / (validResults results).length }

/-- A concrete transport with a working remote endpoint, for closed
evaluations. -/
def sampleTransport : Transport :=
  { probe := .ok true
    remote := fun texts _ =>
      .ok { sentiments := texts.map (fun _ => "neutral")
            scores := texts.map (fun _ => (1 : ℚ) / 2)
            confidences := texts.map (fun _ => 1) }
    localClassifier := fun texts _ =>
      .ok (texts.map (fun _ => { sentiment := "neutral", score := 1/2, confidence := 1 })) }

/-- A concrete transport whose remote analyze call fails. -/
def failingRemoteTransport : Transport :=
  { sampleTransport with remote := fun _ _ => .error "timeout" }

/-- A sample language detector: Spanish for the one Spanish text. -/
def sampleDetect (s : String) : String :=
  if s = "hola mundo" then "es" else "en"

/-- Sample raw comment records. -/
def sampleRaws : List RawComment :=
  [{ text := "hola mundo", cid := some "c1" },
   { text := "good morning", cid := some "c2" },
   { text := "hola mundo", cid := some "c3" }]

/-- Sample search entries: one too old for a 24-hour window ending at
instant 100, one inside it, one with no upload timestamp. -/
def sampleEntries : List RawEntry :=
  [{ id := some "old1", title := some "viejo", view_count := some 900,
     upload_date := some 0 },
   { id := some "new1", title := some "nuevo", view_count := some 500,
     upload_date := some 90 },
   { id := some "fresh1", title := some "sin fecha", view_count := some 700 }]

/-- A sample batch of analysis results containing a 5-level label. -/
def sampleResults : List AnalysisResult :=
  [{ sentiment := some "very positive", score := 1, confidence := 1 },
   { sentiment := some "positive", score := 3/4, confidence := 1 },
   { sentiment := some "negative", score := 0, confidence := 1 }]

/-- The statistics of `sampleResults`. -/
def sampleStats : SentimentStatistics :=
  { total := 3
    positive_count := 1
    negative_count := 1
    neutral_count := 0
    positive_pct := 100 / 3
    negative_pct := 100 / 3
    neutral_pct := 0
    avg_score := 7 / 12
    avg_confidence := 1 }

/-! ## Shared helper lemmas -/

theorem length_mk (l : List Char) : (String.mk l).length = l.length := rfl

theorem length_data (s : String) : s.data.length = s.length := rfl

/-- `validate_comment` with no language argument, with the (definitionally
false) language test already discharged. -/
theorem validate_comment_none_eq (s : String) :
    validate_comment s none =
      (if (clean_text s).length < 5 then (false, none)
       else if !hasSpanishAlpha (if (clean_text s).length > 5000
                then String.mk ((clean_text s).data.take 5000) else clean_text s)
         then (false, none)
         else (true, some (if (clean_text s).length > 5000
                then String.mk ((clean_text s).data.take 5000) else clean_text s))) := rfl

/-- An accepted comment was not short, and the returned text is the cleaned
text, truncated to 5000 characters when over-long. -/
theorem validate_comment_accept_eq (s : String) (r : String)
    (hr : validate_comment s none = (true, some r)) :
    ¬ (clean_text s).length < 5
    ∧ r = (if (clean_text s).length > 5000
            then String.mk ((clean_text s).data.take 5000) else clean_text s) := by
  rw [validate_comment_none_eq] at hr
  split at hr
  · simp at hr
  · split at hr
    · split at hr
      · exact absurd hr (by simp)
      · refine ⟨by assumption, ?_⟩
        rw [if_pos (by assumption)]
        simpa using hr.symm
    · split at hr
      · exact absurd hr (by simp)
      · refine ⟨by assumption, ?_⟩
        rw [if_neg (by assumption)]
        simpa using hr.symm

theorem urlSubF_replicate_a (fuel n : Nat) :
    urlSubF fuel (List.replicate n 'a') = List.replicate n 'a' := by
  induction fuel generalizing n with
  | zero => rfl
  | succ fuel ih =>
    cases n with
    | zero => rfl
    | succ n =>
      have hstep : urlSubF (fuel + 1) ('a' :: List.replicate n 'a')
          = 'a' :: urlSubF fuel (List.replicate n 'a') := rfl
      rw [List.replicate_succ, hstep, ih]

theorem collapseWsF_replicate_a (fuel n : Nat) :
    collapseWsF fuel (List.replicate n 'a') = List.replicate n 'a' := by
  induction fuel generalizing n with
  | zero => rfl
  | succ fuel ih =>
    cases n with
    | zero => rfl
    | succ n =>
      have hstep : collapseWsF (fuel + 1) ('a' :: List.replicate n 'a')
          = 'a' :: collapseWsF fuel (List.replicate n 'a') := rfl
      rw [List.replicate_succ, hstep, ih]

theorem dropWhile_replicate_a (p : Char → Bool) (hp : p 'a' = false) (n : Nat) :
    (List.replicate n 'a').dropWhile p = List.replicate n 'a' := by
  cases n with
  | zero => rfl
  | succ n => rw [List.replicate_succ, List.dropWhile_cons, hp]; simp

/-- `clean_text` fixes strings of repeated `'a'`: no stage changes them. -/
theorem clean_text_replicate_a (n : Nat) :
    clean_text (String.mk (List.replicate n 'a')) = String.mk (List.replicate n 'a') := by
  have hfilter : ∀ (p : Char → Bool), p 'a' = true →
      List.filter p (List.replicate n 'a') = List.replicate n 'a' := fun p hp =>
    List.filter_eq_self.2 (fun a ha => by rw [List.eq_of_mem_replicate ha]; exact hp)
  show String.mk (ctrlFilter (pyStrip (collapseWs (emojiSub (urlSub (List.replicate n 'a'))))))
      = String.mk (List.replicate n 'a')
  rw [urlSub, urlSubF_replicate_a]
  rw [emojiSub, hfilter _ (by decide)]
  rw [collapseWs, collapseWsF_replicate_a]
  rw [pyStrip, dropWhile_replicate_a _ (by decide), List.reverse_replicate,
      dropWhile_replicate_a _ (by decide), List.reverse_replicate]
  rw [ctrlFilter, hfilter _ (by decide)]

theorem any_replicate_pos {α} (p : α → Bool) (a : α) (n : Nat) (hn : 0 < n) :
    (List.replicate n a).any p = p a := by
  cases n with
  | zero => omega
  | succ n => simp [List.replicate_succ, List.any_cons, List.any_replicate]

/-- A 6000-character all-`'a'` comment is accepted and truncated to 5000
characters. -/
theorem validate_comment_long_a :
    validate_comment (String.mk (List.replicate 6000 'a')) none
      = (true, some (String.mk (List.replicate 5000 'a'))) := by
  rw [validate_comment_none_eq, clean_text_replicate_a]
  have hlen : (String.mk (List.replicate 6000 'a')).length = 6000 := by
    rw [length_mk, List.length_replicate]
  rw [hlen]
  have halpha : hasSpanishAlpha (String.mk (List.replicate 5000 'a')) = true := by
    show (List.replicate 5000 'a').any (fun c => isSpanishAlpha (pyLowerChar c)) = true
    rw [any_replicate_pos _ _ _ (by norm_num)]
    decide
  have htake : (String.mk (List.replicate 6000 'a')).data.take 5000 = List.replicate 5000 'a' := by
    show (List.replicate 6000 'a').take 5000 = _
    rw [List.take_replicate]
    norm_num
  norm_num [htake, halpha]

/-- Helper: the per-video fold of the orchestrator never touches
`end_time` or the write counter. -/
theorem foldl_processVideo_endTime (extract : YouTubeVideo → Except String (List Comment)) :
    ∀ (vs : List YouTubeVideo) (acc : List Comment × OrchState),
      ((vs.foldl (processVideo extract) acc).2.endTimeWrites = acc.2.endTimeWrites
        ∧ (vs.foldl (processVideo extract) acc).2.stats.end_time = acc.2.stats.end_time) := by
  intro vs
  induction vs with
  | nil => intro acc; exact ⟨rfl, rfl⟩
  | cons v vs ih =>
    intro acc
    obtain ⟨cs, σ⟩ := acc
    simp only [List.foldl_cons]
    rcases h : extract v with e | l <;>
      simpa [processVideo, h] using ih _

/-! ## Claim C1 — orchestrator stats finalization -/

/-- C1 counterexample: when the search phase yields zero videos,
`stats.end_time = datetime.now()` executes twice — once at the early
return (youtube_scraper.py line 294) and once more in the `finally` clause
(line 322), which Python runs on that very return — so it is not assigned
exactly once on that terminal path. -/
theorem scrape_zero_videos_double_write :
    (scrape_search_results (.ok []) (fun _ => .ok []) 10).2.endTimeWrites = 2 := by
  decide

/-- C1 (amended): every run of `scrape_search_results` finalizes the
returned stats — `end_time` is non-null on the normal path, on the
zero-videos path and on the top-level-exception path.  The assignment
executes exactly once on the normal and exception paths, and exactly twice
on the zero-videos path (early return plus `finally`). -/
theorem scrape_stats_finalized (search : Except String (List YouTubeVideo))
    (extract : YouTubeVideo → Except String (List Comment)) (maxVideos : Nat) :
    (scrape_search_results search extract maxVideos).2.stats.end_time.isSome = true
  ∧ (scrape_search_results search extract maxVideos).2.endTimeWrites
      = (match search with | .ok [] => 2 | _ => 1) := by
  rcases search with e | videos
  · exact ⟨rfl, rfl⟩
  · rcases videos with _ | ⟨v, vs⟩
    · exact ⟨rfl, rfl⟩
    · have h := foldl_processVideo_endTime extract ((v :: vs).take maxVideos)
        ([], { clock := 1, stats := { start_time := 0, videos_found := (v :: vs).length },
               endTimeWrites := 0 })
      simp only [scrape_search_results, tick, setEndTime, List.isEmpty_cons]
      constructor
      · simp [setEndTime, tick]
      · simp only [List.length_cons] at h
        simp [setEndTime, tick, h.1]

/-! ## Claim C2 — `clean_text` idempotence -/

/-- C2 counterexample: `clean_text` is not idempotent.  For
`"a \x01 b"`, whitespace collapsing runs before control characters are
removed, so removing `\x01` leaves the double space `"a  b"`, which a
second application collapses to `"a b"`. -/
theorem clean_text_not_idempotent :
    clean_text (clean_text "a \x01 b") ≠ clean_text "a \x01 b" := by
  decide

theorem char_eq_space_of_toNat (c : Char) (h : c.toNat = 32) : c = ' ' := by
  have h2 := Char.ofNat_toNat c
  rw [h] at h2
  rw [← h2]

/-- Printable ASCII characters are outside every emoji range. -/
theorem isEmoji_ascii (c : Char) (h : c.toNat ≤ 126) : isEmoji c = false := by
  simp only [isEmoji, Bool.or_eq_false_iff, Bool.and_eq_false_iff,
    decide_eq_false_iff_not, beq_eq_false_iff_ne, ne_eq, not_le]
  omega

/-- The only printable-ASCII whitespace character is the space. -/
theorem isPySpace_ascii (c : Char) (hlo : 32 ≤ c.toNat) (hhi : c.toNat ≤ 126) :
    isPySpace c = true ↔ c = ' ' := by
  constructor
  · intro h
    simp only [isPySpace, Bool.or_eq_true, beq_iff_eq, Bool.and_eq_true,
      decide_eq_true_eq] at h
    have : c.toNat = 32 := by omega
    exact char_eq_space_of_toNat c this
  · intro h
    subst h
    decide

theorem matchHttp_shape (l r : List Char) (h : matchHttp l = some r) :
    ['h', 't', 't', 'p'] <+: l := by
  unfold matchHttp at h
  split at h
  · exact ⟨_, rfl⟩
  · exact absurd h (by simp)

theorem matchWww_shape (l r : List Char) (h : matchWww l = some r) :
    ['w', 'w', 'w'] <+: l := by
  unfold matchWww at h
  split at h
  · exact ⟨_, rfl⟩
  · exact absurd h (by simp)

/-- The URL scan is the identity on lists containing neither `http` nor
`www`. -/
theorem urlSubF_id (fuel : Nat) :
    ∀ (l : List Char), ¬ ['h', 't', 't', 'p'] <:+: l → ¬ ['w', 'w', 'w'] <:+: l →
      urlSubF fuel l = l := by
  induction fuel with
  | zero => intro l _ _; rfl
  | succ fuel ih =>
    intro l hhttp hwww
    cases l with
    | nil => rfl
    | cons c cs =>
      have h1 : matchHttp (c :: cs) = none := by
        cases hm : matchHttp (c :: cs) with
        | none => rfl
        | some r => exact absurd (matchHttp_shape _ r hm).isInfix hhttp
      have h2 : matchWww (c :: cs) = none := by
        cases hm : matchWww (c :: cs) with
        | none => rfl
        | some r => exact absurd (matchWww_shape _ r hm).isInfix hwww
      have hstep : urlSubF (fuel + 1) (c :: cs)
          = c :: urlSubF fuel cs := by
        simp only [urlSubF, h1, h2]
      rw [hstep, ih cs (fun hi => hhttp (List.infix_cons hi))
        (fun hi => hwww (List.infix_cons hi))]

/-- Whitespace collapsing is the identity on printable-ASCII lists without
adjacent spaces. -/
theorem collapseWsF_id (fuel : Nat) :
    ∀ (l : List Char), (∀ c ∈ l, 32 ≤ c.toNat ∧ c.toNat ≤ 126) →
      ¬ [' ', ' '] <:+: l → collapseWsF fuel l = l := by
  induction fuel with
  | zero => intro l _ _; rfl
  | succ fuel ih =>
    intro l hascii hdbl
    cases l with
    | nil => rfl
    | cons c cs =>
      have hcs : ∀ x ∈ cs, 32 ≤ x.toNat ∧ x.toNat ≤ 126 :=
        fun x hx => hascii x (List.mem_cons_of_mem c hx)
      have hdcs : ¬ [' ', ' '] <:+: cs := fun hi => hdbl (List.infix_cons hi)
      by_cases hsp : isPySpace c = true
      · have hc : c = ' ' :=
          (isPySpace_ascii c (hascii c (List.mem_cons_self c cs)).1
            (hascii c (List.mem_cons_self c cs)).2).1 hsp
        subst hc
        have hdrop : cs.dropWhile isPySpace = cs := by
          cases cs with
          | nil => rfl
          | cons c2 cs2 =>
            have hc2n : isPySpace c2 = false := by
              cases hx : isPySpace c2 with
              | false => rfl
              | true =>
                have : c2 = ' ' :=
                  (isPySpace_ascii c2 (hcs c2 (List.mem_cons_self c2 cs2)).1
                    (hcs c2 (List.mem_cons_self c2 cs2)).2).1 hx
                subst this
                exact absurd (List.IsPrefix.isInfix ⟨cs2, rfl⟩) hdbl
            rw [List.dropWhile_cons, hc2n]
            simp
        have hstep : collapseWsF (fuel + 1) (' ' :: cs)
            = ' ' :: collapseWsF fuel (cs.dropWhile isPySpace) := by
          simp [collapseWsF, isPySpace]
        rw [hstep, hdrop, ih cs hcs hdcs]
      · have hstep : collapseWsF (fuel + 1) (c :: cs)
            = c :: collapseWsF fuel cs := by
          simp [collapseWsF, hsp]
        rw [hstep, ih cs hcs hdcs]

theorem dropWhile_id_of_head (l : List Char)
    (hascii : ∀ c ∈ l, 32 ≤ c.toNat ∧ c.toNat ≤ 126)
    (hhead : l.head? ≠ some ' ') :
    l.dropWhile isPySpace = l := by
  cases l with
  | nil => rfl
  | cons c cs =>
    have hc : isPySpace c = false := by
      cases hx : isPySpace c with
      | false => rfl
      | true =>
        have : c = ' ' :=
          (isPySpace_ascii c (hascii c (List.mem_cons_self c cs)).1
            (hascii c (List.mem_cons_self c cs)).2).1 hx
        subst this
        exact absurd rfl hhead
    rw [List.dropWhile_cons, hc]
    simp

/-- C2 (amended): `clean_text` is the identity — hence idempotent — on
printable-ASCII strings with no adjacent spaces, no leading or trailing
space, and no `http`/`www` substring.  (In general it is not idempotent:
see `clean_text_not_idempotent`.) -/
theorem clean_text_idempotent_on_clean_ascii (s : String)
    (hascii : ∀ c ∈ s.data, 32 ≤ c.toNat ∧ c.toNat ≤ 126)
    (hdbl : ¬ [' ', ' '] <:+: s.data)
    (hhead : s.data.head? ≠ some ' ')
    (hlast : s.data.getLast? ≠ some ' ')
    (hhttp : ¬ ['h', 't', 't', 'p'] <:+: s.data)
    (hwww : ¬ ['w', 'w', 'w'] <:+: s.data) :
    clean_text (clean_text s) = clean_text s := by
  have hfix : clean_text s = s := by
    show String.mk (ctrlFilter (pyStrip (collapseWs (emojiSub (urlSub s.data))))) = s
    rw [urlSub, urlSubF_id _ s.data hhttp hwww]
    rw [emojiSub, List.filter_eq_self.2
      (fun c hc => by rw [isEmoji_ascii c (hascii c hc).2]; rfl)]
    rw [collapseWs, collapseWsF_id _ s.data hascii hdbl]
    rw [pyStrip, dropWhile_id_of_head s.data hascii hhead]
    rw [dropWhile_id_of_head s.data.reverse
      (fun c hc => hascii c (List.mem_reverse.1 hc))
      (by rwa [List.head?_reverse]), List.reverse_reverse]
    rw [ctrlFilter, List.filter_eq_self.2 (fun c hc => by
      have := (hascii c hc).1
      simp [this])]
  rw [hfix, hfix]

/-- C2 (amended) witness. -/
theorem clean_text_idempotent_on_clean_ascii_app :
    clean_text (clean_text "hola mundo politico") = clean_text "hola mundo politico" :=
  clean_text_idempotent_on_clean_ascii "hola mundo politico"
    (by decide) (by decide) (by decide) (by decide) (by decide) (by decide)

/-! ## Claim C7 — `validate_comment` length bounds -/

/-- C7: `validate_comment` rejects when the cleaned text has fewer than 5
characters; an over-long cleaned text (more than 5000 characters) is
truncated rather than rejected, so an accepted over-long input yields
exactly 5000 characters; and every accepted output has between 5 and 5000
characters. -/
theorem validate_comment_bounds (s : String) :
    ((clean_text s).length < 5 → (validate_comment s none).1 = false)
  ∧ (∀ r, validate_comment s none = (true, some r) → 5 ≤ r.length ∧ r.length ≤ 5000)
  ∧ ((clean_text s).length > 5000 →
      ∀ r, validate_comment s none = (true, some r) → r.length = 5000) := by
  refine ⟨fun h => ?_, fun r hr => ?_, fun hL r hr => ?_⟩
  · rw [validate_comment_none_eq, if_pos h]
  · obtain ⟨h5, rfl⟩ := validate_comment_accept_eq s r hr
    by_cases hL : (clean_text s).length > 5000
    · rw [if_pos hL]
      simp only [length_mk, List.length_take, length_data]
      omega
    · rw [if_neg hL]
      omega
  · obtain ⟨h5, rfl⟩ := validate_comment_accept_eq s r hr
    rw [if_pos hL]
    simp only [length_mk, List.length_take, length_data]
    omega

/-- C7 witness: the three parts of `validate_comment_bounds` instantiated —
`"ab"` cleans to fewer than 5 characters and is rejected; `"hola mundo"`
is accepted with its length in bounds; the 6000-character all-`'a'` input
cleans to more than 5000 characters and its accepted output has exactly
5000. -/
theorem validate_comment_bounds_app :
    ((clean_text "ab").length < 5 ∧ (validate_comment "ab" none).1 = false)
  ∧ (validate_comment "hola mundo" none = (true, some "hola mundo")
      ∧ 5 ≤ ("hola mundo" : String).length ∧ ("hola mundo" : String).length ≤ 5000)
  ∧ ((clean_text (String.mk (List.replicate 6000 'a'))).length > 5000
      ∧ (String.mk (List.replicate 5000 'a')).length = 5000) := by
  have h6 : (clean_text (String.mk (List.replicate 6000 'a'))).length > 5000 := by
    rw [clean_text_replicate_a, length_mk, List.length_replicate]; norm_num
  refine ⟨⟨by decide, (validate_comment_bounds "ab").1 (by decide)⟩,
          ⟨by decide, ((validate_comment_bounds "hola mundo").2.1 "hola mundo" (by decide)).1,
            ((validate_comment_bounds "hola mundo").2.1 "hola mundo" (by decide)).2⟩,
          h6, (validate_comment_bounds _).2.2 h6 _ validate_comment_long_a⟩

/-! ## Claim C9 — the language gate of `validate_comment` -/

/-- C9: `validate_comment` compares its `language` argument only against
the constant `'es'`: any non-empty language other than `"es"` is rejected
outright regardless of the text, while `"es"` behaves exactly like passing
no language at all — no language-based rejection and no language detection
on the text itself. -/
theorem validate_comment_language_gate (text : String) (L : String)
    (hne : L ≠ "") (hnes : L ≠ "es") :
    validate_comment text (some L) = (false, none)
  ∧ validate_comment text (some "es") = validate_comment text none := by
  constructor
  · have hc : (langTruthy (some L) && decide ((some L : Option String) ≠ some "es")) = true := by
      simp [langTruthy, hne, hnes]
    unfold validate_comment
    simp only [hc]
    split <;> simp
  · rfl

/-- C9 witness. -/
theorem validate_comment_language_gate_app :
    validate_comment "hola mundo" (some "en") = (false, none)
  ∧ validate_comment "hola mundo" (some "es")
      = validate_comment "hola mundo" none :=
  validate_comment_language_gate "hola mundo" "en" (by decide) (by decide)

/-! ## Claim C4 — the health-probe cache interval (code bug) -/

/-- C4 (documents the code bug): the probe-refresh condition uses
`timedelta.seconds` — the seconds *component*, total mod 86400 — so a call
made 86401 seconds (one day and one second) after the last probe, far
beyond the 30-second interval, computes `.seconds == 1` and does *not*
refresh the probe: `healthCheckDue` is false and the call performs no
probe request, contradicting the spec's fixed 30-second cache. -/
theorem health_probe_cache_day_wraparound :
    30 < 86401 - 0
  ∧ healthCheckDue { is_healthy := true, last_health_check := some 0 } 86401 = false
  ∧ (analyze_sentiment { is_healthy := true, last_health_check := some 0 }
       86401 sampleTransport ["hola"] true).2.2.count Ev.probe = 0 := by
  refine ⟨by norm_num, by decide, ?_⟩
  rfl

/-! ## Claim C3 — cached-unhealthy calls never hit the remote endpoint -/

/-- A cached probe within the 30-second window suppresses the refresh. -/
theorem healthCheckDue_recent (st : ClientState) (now t : Nat)
    (hlast : st.last_health_check = some t) (hwin : now - t ≤ 30) :
    healthCheckDue st now = false := by
  have h : healthCheckDue st now = decide (health_check_interval < pyDeltaSeconds (now - t)) := by
    unfold healthCheckDue
    rw [hlast]
  rw [h, decide_eq_false_iff_not]
  unfold health_check_interval pyDeltaSeconds
  omega

/-- C3: while the cached probe (within its interval) records the service as
unhealthy, `analyze_sentiment` performs no `/analyze` request (no
`Ev.remote` in the event trace) and any returned batch is tagged
`"local"`. -/
theorem analyze_unhealthy_cached_no_remote (st : ClientState) (now t : Nat)
    (tr : Transport) (texts : List String) (useS : Bool)
    (hlast : st.last_health_check = some t) (hwin : now - t ≤ 30)
    (hun : st.is_healthy = false) :
    Ev.remote ∉ (analyze_sentiment st now tr texts useS).2.2
  ∧ (∀ resp, (analyze_sentiment st now tr texts useS).1 = .ok resp →
      resp.service = "local") := by
  have hdue := healthCheckDue_recent st now t hlast hwin
  rcases hfb : st.fallback_to_local with _ | _
  · simp [analyze_sentiment, fallback_analysis, hdue, hun, hfb]
  · rcases hlc : tr.localClassifier texts useS with e | results <;>
      simp [analyze_sentiment, fallback_analysis, hdue, hun, hfb, hlc]

/-- C3 witness. -/
theorem analyze_unhealthy_cached_no_remote_app :
    Ev.remote ∉ (analyze_sentiment
        { is_healthy := false, last_health_check := some 0, fallback_to_local := true }
        10 sampleTransport ["hola"] true).2.2
  ∧ (∀ resp, (analyze_sentiment
        { is_healthy := false, last_health_check := some 0, fallback_to_local := true }
        10 sampleTransport ["hola"] true).1 = .ok resp →
      resp.service = "local") :=
  analyze_unhealthy_cached_no_remote _ 10 0 sampleTransport ["hola"] true rfl
    (by decide) rfl

/-! ## Claim C6 — remote failure: one fallback attempt, no silent degrade -/

/-- C6: dispatching from Healthy, any remote failure marks the client
Unhealthy and triggers exactly one local-fallback attempt for the same
batch (the remote endpoint was tried exactly once — no outer retry loop);
with the fallback disabled, or the local classifier unavailable, the call
raises; with a working fallback the batch is returned tagged `"local"`. -/
theorem analyze_remote_failure_fallback (st : ClientState) (now : Nat) (tr : Transport)
    (texts : List String) (useS : Bool) (e : String)
    (hhealthy : st.is_healthy = true)
    (hnotdue : healthCheckDue st now = false)
    (hremote : tr.remote texts useS = .error e) :
    (analyze_sentiment st now tr texts useS).2.1.is_healthy = false
  ∧ (analyze_sentiment st now tr texts useS).2.2.count Ev.remote = 1
  ∧ (st.fallback_to_local = true →
      (analyze_sentiment st now tr texts useS).2.2.count Ev.localAttempt = 1)
  ∧ (st.fallback_to_local = false →
      ∃ err, (analyze_sentiment st now tr texts useS).1 = .error err)
  ∧ (∀ e2, tr.localClassifier texts useS = .error e2 →
      ∃ err, (analyze_sentiment st now tr texts useS).1 = .error err)
  ∧ (∀ results, st.fallback_to_local = true →
      tr.localClassifier texts useS = .ok results →
      ∃ resp, (analyze_sentiment st now tr texts useS).1 = .ok resp
        ∧ resp.service = "local") := by
  rcases hfb : st.fallback_to_local with _ | _
  · simp [analyze_sentiment, fallback_analysis, hnotdue, hhealthy, hremote, hfb,
      List.count_cons, List.count_append]
  · rcases hlc : tr.localClassifier texts useS with e2 | results <;>
      simp [analyze_sentiment, fallback_analysis, hnotdue, hhealthy, hremote, hfb, hlc,
        List.count_cons, List.count_append]

/-- C6 witness. -/
theorem analyze_remote_failure_fallback_app :
    (analyze_sentiment
        { is_healthy := true, last_health_check := some 0, fallback_to_local := true }
        0 failingRemoteTransport ["hola"] true).2.1.is_healthy = false
  ∧ (analyze_sentiment
        { is_healthy := true, last_health_check := some 0, fallback_to_local := true }
        0 failingRemoteTransport ["hola"] true).2.2.count Ev.remote = 1
  ∧ (({ is_healthy := true, last_health_check := some 0, fallback_to_local := true }
        : ClientState).fallback_to_local = true →
      (analyze_sentiment
        { is_healthy := true, last_health_check := some 0, fallback_to_local := true }
        0 failingRemoteTransport ["hola"] true).2.2.count Ev.localAttempt = 1)
  ∧ (({ is_healthy := true, last_health_check := some 0, fallback_to_local := true }
        : ClientState).fallback_to_local = false →
      ∃ err, (analyze_sentiment
        { is_healthy := true, last_health_check := some 0, fallback_to_local := true }
        0 failingRemoteTransport ["hola"] true).1 = .error err)
  ∧ (∀ e2, failingRemoteTransport.localClassifier ["hola"] true = .error e2 →
      ∃ err, (analyze_sentiment
        { is_healthy := true, last_health_check := some 0, fallback_to_local := true }
        0 failingRemoteTransport ["hola"] true).1 = .error err)
  ∧ (∀ results, ({ is_healthy := true, last_health_check := some 0, fallback_to_local := true }
        : ClientState).fallback_to_local = true →
      failingRemoteTransport.localClassifier ["hola"] true = .ok results →
      ∃ resp, (analyze_sentiment
        { is_healthy := true, last_health_check := some 0, fallback_to_local := true }
        0 failingRemoteTransport ["hola"] true).1 = .ok resp
        ∧ resp.service = "local") :=
  analyze_remote_failure_fallback
    { is_healthy := true, last_health_check := some 0, fallback_to_local := true }
    0 failingRemoteTransport ["hola"] true "timeout" rfl (by decide) rfl

/-! ## Claim C5 — extraction bound and language filter -/

/-- The extraction loop admits at most `maxC - count` further comments. -/
theorem extractLoop_length_le (detect : String → String) (maxC : Nat)
    (vid vt : String) (now : Nat) :
    ∀ (raws : List RawComment) (count : Nat),
      (extractLoop detect maxC vid vt now raws count).length ≤ maxC - count := by
  intro raws
  induction raws with
  | nil => intro count; simp [extractLoop]
  | cons raw rest ih =>
    intro count
    by_cases h : maxC ≤ count
    · simp [extractLoop, h]
    · rcases hp : processItem detect vid vt now count raw with _ | c
      · simpa [extractLoop, h, hp] using ih count
      · have := ih (count + 1)
        simp only [extractLoop, if_neg h, hp, List.length_cons]
        omega

/-- An admitted comment carries the detected language, which the guard
pinned to `"es"`. -/
theorem processItem_language (detect : String → String) (vid vt : String)
    (now count : Nat) (raw : RawComment) (c : Comment)
    (h : processItem detect vid vt now count raw = some c) :
    c.language = "es" := by
  unfold processItem at h
  split at h
  · exact absurd h (by simp)
  · split at h
    · exact absurd h (by simp)
    · split at h
      · have hc : _ = c := Option.some.inj h
        rw [← hc]
        have hes : ¬ detect raw.text ≠ "es" := by assumption
        simpa using hes
      · exact absurd h (by simp)

theorem extractLoop_language (detect : String → String) (maxC : Nat)
    (vid vt : String) (now : Nat) :
    ∀ (raws : List RawComment) (count : Nat) (c : Comment),
      c ∈ extractLoop detect maxC vid vt now raws count → c.language = "es" := by
  intro raws
  induction raws with
  | nil => intro count c hc; simp [extractLoop] at hc
  | cons raw rest ih =>
    intro count c hc
    by_cases h : maxC ≤ count
    · simp [extractLoop, h] at hc
    · rcases hp : processItem detect vid vt now count raw with _ | c0
      · rw [extractLoop, if_neg h, hp] at hc
        exact ih count c hc
      · rw [extractLoop, if_neg h, hp] at hc
        rcases List.mem_cons.1 hc with rfl | hmem
        · exact processItem_language detect vid vt now count raw c hp
        · exact ih (count + 1) c hmem

/-- C5: whatever the caller reads from the extraction buffer — the complete
list on normal completion, or any prefix of it at the 45 s deadline — it
contains at most `max_comments` comments, and every one of them has
`language = "es"`, because items whose detected language differs are
discarded before buffer insertion. -/
theorem extract_comments_bounded_spanish (detect : String → String) (maxC : Nat)
    (vid vt : String) (now : Nat) (raws : List RawComment) (res : List Comment)
    (h : res <+: extract_comments detect maxC vid vt now raws) :
    res.length ≤ maxC ∧ ∀ c ∈ res, c.language = "es" := by
  constructor
  · have h1 := extractLoop_length_le detect maxC vid vt now raws 0
    have h2 := h.length_le
    unfold extract_comments at h2
    omega
  · intro c hc
    exact extractLoop_language detect maxC vid vt now raws 0 c
      (h.sublist.subset hc)

/-- C5 witness: three raw items (two Spanish, one English) under a limit of
1 yield at most one comment, all Spanish. -/
theorem extract_comments_bounded_spanish_app :
    (extract_comments sampleDetect 1 "vid" "title" 0 sampleRaws).length ≤ 1
  ∧ ∀ c ∈ extract_comments sampleDetect 1 "vid" "title" 0 sampleRaws,
      c.language = "es" :=
  extract_comments_bounded_spanish sampleDetect 1 "vid" "title" 0 sampleRaws _
    (List.prefix_refl _)

/-! ## Claim C8 — search results: recency filter and views-descending order -/

/-- C8: `search_videos` returns a sequence sorted by views descending, it
contains no video uploaded strictly before `now - hours_back`, and every
well-formed entry without an upload timestamp is kept (treated as uploaded
`now`, hence fresh). -/
theorem search_videos_sorted_and_filtered (now : Int) (hoursBack : Nat)
    (entries : List RawEntry) :
    List.Pairwise (fun a b : YouTubeVideo => b.views ≤ a.views)
      (search_videos now hoursBack entries)
  ∧ (∀ v ∈ search_videos now hoursBack entries, now - hoursBack ≤ v.upload_date)
  ∧ (∀ e ∈ entries, e.upload_date = none → ∀ i, e.id = some i →
      mkVideo e i now ∈ search_videos now hoursBack entries) := by
  refine ⟨?_, fun v hv => ?_, fun e he hnone i hid => ?_⟩
  · have hs := @List.sorted_mergeSort YouTubeVideo
      (fun a b : YouTubeVideo => decide (b.views ≤ a.views))
      (fun a b c hab hbc => by
        simp only [decide_eq_true_eq] at *
        omega)
      (fun a b => by
        simp only [Bool.or_eq_true, decide_eq_true_eq]
        omega)
      (entries.filterMap (fun e =>
        if entryUploadDt now e < now - hoursBack then none
        else
          match e.id with
          | some i => some (mkVideo e i (entryUploadDt now e))
          | none => none))
    exact hs.imp (fun h => by simpa using h)
  · rw [search_videos, List.mem_mergeSort, List.mem_filterMap] at hv
    obtain ⟨e, he, hfe⟩ := hv
    split at hfe
    · exact absurd hfe (by simp)
    · split at hfe
      · obtain rfl := Option.some.inj hfe
        simp only [mkVideo]
        omega
      · exact absurd hfe (by simp)
  · rw [search_videos, List.mem_mergeSort, List.mem_filterMap]
    refine ⟨e, he, ?_⟩
    have hdt : entryUploadDt now e = now := by
      unfold entryUploadDt
      rw [hnone]
    rw [hdt, if_neg (by omega), hid]

/-- C8 witness: with a window of 24 time units ending at instant 100, the
entry uploaded at 0 is dropped, the one at 90 is kept, and the
timestamp-free entry is kept; the result is sorted by views descending. -/
theorem search_videos_sorted_and_filtered_app :
    List.Pairwise (fun a b : YouTubeVideo => b.views ≤ a.views)
      (search_videos 100 24 sampleEntries)
  ∧ (∀ v ∈ search_videos 100 24 sampleEntries, 100 - 24 ≤ v.upload_date)
  ∧ (∀ e ∈ sampleEntries, e.upload_date = none → ∀ i, e.id = some i →
      mkVideo e i 100 ∈ search_videos 100 24 sampleEntries) := by
  have h := search_videos_sorted_and_filtered 100 24 sampleEntries
  refine ⟨h.1, ?_, h.2.2⟩
  intro v hv
  have := h.2.1 v hv
  simpa using this

/-! ## Claim C10 — statistics count only the three exact labels -/

/-- The three exact-label counts are jointly bounded by the list length,
strictly when a 5-level label is present. -/
theorem three_counts (l : List AnalysisResult) :
    ((l.filter (fun r => r.sentiment == some "positive")).length
      + (l.filter (fun r => r.sentiment == some "negative")).length
      + (l.filter (fun r => r.sentiment == some "neutral")).length ≤ l.length)
  ∧ (∀ x ∈ l, (x.sentiment = some "very positive" ∨ x.sentiment = some "very negative") →
      (l.filter (fun r => r.sentiment == some "positive")).length
        + (l.filter (fun r => r.sentiment == some "negative")).length
        + (l.filter (fun r => r.sentiment == some "neutral")).length < l.length) := by
  induction l with
  | nil => exact ⟨le_refl 0, by simp⟩
  | cons a t ih =>
    have hsplit : ∀ (p : AnalysisResult → Bool),
        ((a :: t).filter p).length = (if p a then 1 else 0) + (t.filter p).length := by
      intro p
      by_cases hp : p a <;> simp [List.filter_cons, hp, Nat.add_comm]
    have hone : (if (a.sentiment == some "positive" : Bool) then 1 else 0)
        + (if (a.sentiment == some "negative" : Bool) then 1 else 0)
        + (if (a.sentiment == some "neutral" : Bool) then 1 else 0) ≤ 1 := by
      by_cases h1 : a.sentiment = some "positive" <;>
      by_cases h2 : a.sentiment = some "negative" <;>
      by_cases h3 : a.sentiment = some "neutral" <;>
        simp_all
    constructor
    · rw [hsplit, hsplit, hsplit]
      simp only [List.length_cons]
      have := ih.1
      omega
    · intro x hx hvery
      rw [hsplit, hsplit, hsplit]
      simp only [List.length_cons]
      rcases List.mem_cons.1 hx with rfl | hmem
      · have hz1 : (x.sentiment == some "positive" : Bool) = false := by
          rcases hvery with h | h <;> simp [h]
        have hz2 : (x.sentiment == some "negative" : Bool) = false := by
          rcases hvery with h | h <;> simp [h]
        have hz3 : (x.sentiment == some "neutral" : Bool) = false := by
          rcases hvery with h | h <;> simp [h]
        rw [hz1, hz2, hz3]
        have := ih.1
        simp only [Bool.false_eq_true, if_false]
        omega
      · have := ih.2 x hmem hvery
        omega

/-- Field equations of a non-empty `get_statistics` result. -/
theorem get_statistics_some_eq (results : List AnalysisResult) (st : SentimentStatistics)
    (h : get_statistics results = some st) :
    (validResults results) ≠ []
  ∧ st.total = (validResults results).length
  ∧ st.positive_count
      = ((validResults results).filter (fun r => r.sentiment == some "positive")).length
  ∧ st.negative_count
      = ((validResults results).filter (fun r => r.sentiment == some "negative")).length
  ∧ st.neutral_count
      = ((validResults results).filter (fun r => r.sentiment == some "neutral")).length
  ∧ st.positive_pct = (st.positive_count : ℚ) / st.total * 100
  ∧ st.negative_pct = (st.negative_count : ℚ) / st.total * 100
  ∧ st.neutral_pct = (st.neutral_count : ℚ) / st.total * 100
  ∧ st.avg_score = ((validResults results).map (fun r => r.score)).sum / (st.total : ℚ)
  ∧ st.avg_confidence
      = ((validResults results).map (fun r => r.confidence)).sum / (st.total : ℚ) := by
  unfold get_statistics at h
  split at h
  · exact absurd h (by simp)
  · split at h
    · exact absurd h (by simp)
    · have hne : (validResults results).isEmpty = false := by
        rcases hh : (validResults results).isEmpty with _ | _
        · rfl
        · exact absurd hh (by assumption)
      obtain rfl := Option.some.inj h
      exact ⟨by simpa [List.isEmpty_iff] using hne, rfl, rfl, rfl, rfl, rfl, rfl, rfl, rfl, rfl⟩

/-- C10: `get_statistics` counts only outcomes labeled exactly `positive`,
`negative` or `neutral`; the 5-level labels `very positive`/`very negative`
still count towards `total` and enter both averages (taken over all valid
outcomes), so the three counts sum to at most `total` — strictly less, with
the three percentages summing below 100, whenever such a label is
present. -/
theorem get_statistics_counts (results : List AnalysisResult) (st : SentimentStatistics)
    (h : get_statistics results = some st) :
    st.positive_count + st.negative_count + st.neutral_count ≤ st.total
  ∧ st.total = (validResults results).length
  ∧ st.avg_score = ((validResults results).map (fun r => r.score)).sum / (st.total : ℚ)
  ∧ st.avg_confidence
      = ((validResults results).map (fun r => r.confidence)).sum / (st.total : ℚ)
  ∧ ((∃ r ∈ results, r.sentiment = some "very positive"
        ∨ r.sentiment = some "very negative") →
      st.positive_count + st.negative_count + st.neutral_count < st.total
        ∧ st.positive_pct + st.negative_pct + st.neutral_pct < 100) := by
  obtain ⟨hne, htot, hp, hn, hu, hpp, hnp, hup, hsc, hcf⟩ :=
    get_statistics_some_eq results st h
  have h3 := three_counts (validResults results)
  refine ⟨by rw [hp, hn, hu, htot]; exact h3.1, htot, hsc, hcf, fun hex => ?_⟩
  obtain ⟨r, hr, hvery⟩ := hex
  have hrv : r ∈ validResults results := by
    refine List.mem_filter.2 ⟨hr, ?_⟩
    rcases hvery with hv | hv <;> simp [resultTruthy, hv]
  have hlt : st.positive_count + st.negative_count + st.neutral_count < st.total := by
    rw [hp, hn, hu, htot]
    exact h3.2 r hrv hvery
  refine ⟨hlt, ?_⟩
  have htpos : 0 < st.total := by omega
  have htposq : (0 : ℚ) < (st.total : ℚ) := by exact_mod_cast htpos
  rw [hpp, hnp, hup]
  have hsum : (st.positive_count : ℚ) / st.total * 100 + (st.negative_count : ℚ) / st.total * 100
      + (st.neutral_count : ℚ) / st.total * 100
      = ((st.positive_count + st.negative_count + st.neutral_count : ℚ)) / st.total * 100 := by
    field_simp
    ring
  rw [hsum]
  have hlt2 : ((st.positive_count + st.negative_count + st.neutral_count : ℚ)) / st.total < 1 := by
    rw [div_lt_one htposq]
    exact_mod_cast hlt
  calc ((st.positive_count + st.negative_count + st.neutral_count : ℚ)) / st.total * 100
      < 1 * 100 := by
        apply mul_lt_mul_of_pos_right hlt2
        norm_num
    _ = 100 := by norm_num

/-- `get_statistics` at the sample batch, evaluated symbolically (rational
arithmetic is opaque to kernel reduction, so this is proved by `norm_num`
rather than `decide`). -/
theorem gs_sample : get_statistics sampleResults = some sampleStats := by
  have hval : validResults sampleResults = sampleResults := by
    simp [validResults, resultTruthy, sampleResults]
  unfold get_statistics
  rw [hval]
  have hp : (sampleResults.filter (fun r => r.sentiment == some "positive")).length = 1 := by
    simp [sampleResults, List.filter_cons]
  have hn : (sampleResults.filter (fun r => r.sentiment == some "negative")).length = 1 := by
    simp [sampleResults, List.filter_cons]
  have hu : (sampleResults.filter (fun r => r.sentiment == some "neutral")).length = 0 := by
    simp [sampleResults, List.filter_cons]
  rw [if_neg (by simp [sampleResults]), if_neg (by simp [sampleResults]), hp, hn, hu]
  have hlen : sampleResults.length = 3 := by simp [sampleResults]
  rw [hlen]
  have hsc : (sampleResults.map (fun r => r.score)).sum = 7/4 := by
    simp [sampleResults]
    norm_num
  have hcf : (sampleResults.map (fun r => r.confidence)).sum = 3 := by
    simp [sampleResults]
    norm_num
  rw [hsc, hcf]
  simp only [sampleStats, Option.some.injEq, SentimentStatistics.mk.injEq]
  norm_num

/-- C10 witness: a batch with one `very positive`, one `positive`, one
`negative` yields counts 1/1/0 with total 3, and both strict conclusions
fire. -/
theorem get_statistics_counts_app :
    (sampleStats.positive_count + sampleStats.negative_count + sampleStats.neutral_count
        ≤ sampleStats.total
      ∧ sampleStats.total = (validResults sampleResults).length
      ∧ sampleStats.avg_score
          = ((validResults sampleResults).map (fun r => r.score)).sum / (sampleStats.total : ℚ)
      ∧ sampleStats.avg_confidence
          = ((validResults sampleResults).map (fun r => r.confidence)).sum
              / (sampleStats.total : ℚ)
      ∧ ((∃ r ∈ sampleResults, r.sentiment = some "very positive"
            ∨ r.sentiment = some "very negative") →
          sampleStats.positive_count + sampleStats.negative_count + sampleStats.neutral_count
              < sampleStats.total
            ∧ sampleStats.positive_pct + sampleStats.negative_pct + sampleStats.neutral_pct
                < 100))
  ∧ (∃ r ∈ sampleResults, r.sentiment = some "very positive"
      ∨ r.sentiment = some "very negative") :=
  ⟨get_statistics_counts sampleResults sampleStats gs_sample,
   ⟨{ sentiment := some "very positive", score := 1, confidence := 1 },
    by unfold sampleResults; exact List.mem_cons_self _ _, Or.inl rfl⟩⟩

end SentimentElections
